import Mathlib

/-!
Shallow embedding of the BrightData e-commerce MCP server
(`src/build/src/server.js`, `ScraperService`, `ProductService`) and of the
persistence collaborator it talks to. Cheerio selector evaluation and the
HTTP transport are external collaborators: they are represented as oracles
(selector results per platform, provider responses), while every piece of
logic of the repository itself — string clean-up, guards, record assembly,
platform detection, dataset lookup, the poll loop, the batch loops and the
product service — is translated directly from the source.
-/

deriving instance DecidableEq for Except

/-! ### JavaScript string and number primitives -/

/-- Whether `pat` occurs as a contiguous sublist of the second argument. -/
def containsSub (pat : List Char) : List Char → Bool
  | [] => pat.isEmpty
  | c :: cs => pat.isPrefixOf (c :: cs) || containsSub pat cs

/-- JS `String.prototype.includes(sub)` on `s`. -/
def jsIncludes (s sub : String) : Bool :=
  containsSub sub.data s.data

/-- JS `String.prototype.trim`: strip whitespace from both ends. -/
def String.jsTrim (s : String) : String :=
  String.mk (((s.data.dropWhile Char.isWhitespace).reverse.dropWhile Char.isWhitespace).reverse)

/-- JS `String.prototype.startsWith`. -/
def String.jsStartsWith (s pre : String) : Bool :=
  pre.data.isPrefixOf s.data

/-- Replace the first occurrence of `pat` by `repl` (JS `replace` with a string pattern). -/
def listReplaceFirst (pat repl : List Char) : List Char → List Char
  | [] => if pat.isEmpty then repl else []
  | c :: cs =>
    if pat.isPrefixOf (c :: cs) then repl ++ (c :: cs).drop pat.length
    else c :: listReplaceFirst pat repl cs

/-- JS `s.replace(pat, repl)` with a string pattern: first occurrence only. -/
def jsReplaceFirst (s pat repl : String) : String :=
  String.mk (listReplaceFirst pat.data repl.data s.data)

/-- JS `.replace(/[^0-9.]/g, "")`: keep only digits and decimal points. -/
def stripNonPrice (s : String) : String :=
  String.mk (s.data.filter (fun c => c.isDigit || c == '.'))

/-- JS `.replace(/[^0-9]/g, "")`: keep only digits. -/
def stripNonDigits (s : String) : String :=
  String.mk (s.data.filter Char.isDigit)

/-- Decimal value of a digit list, accumulator style. -/
def digitsVal : List Char → ℕ → ℕ
  | [], acc => acc
  | c :: cs, acc => digitsVal cs (acc * 10 + (c.toNat - 48))

/-- JS `parseFloat`: skip leading whitespace, optional sign, longest prefix of
digits with at most one decimal point; `none` models `NaN`. The price texts the
code feeds in are pre-stripped to digits, dots, `$` and commas, so the
`Infinity` and exponent literal forms are never exercised and are not modelled;
values are exact rationals rather than IEEE doubles. -/
def jsParseFloat (s : String) : Option ℚ :=
  let t := s.data.dropWhile Char.isWhitespace
  let signed : Bool × List Char :=
    match t with
    | '-' :: r => (true, r)
    | '+' :: r => (false, r)
    | _ => (false, t)
  let intPart := signed.2.takeWhile Char.isDigit
  let rest := signed.2.drop intPart.length
  let fracPart : List Char :=
    match rest with
    | '.' :: r => r.takeWhile Char.isDigit
    | _ => []
  if intPart.isEmpty && fracPart.isEmpty then none
  else
    let mag : ℤ := (digitsVal intPart 0 * 10 ^ fracPart.length + digitsVal fracPart 0 : ℕ)
    some (mkRat (if signed.1 then -mag else mag) (10 ^ fracPart.length))

/-- JS `parseInt` applied to a digits-only string (the code always strips
non-digits first); `none` models `NaN` on the empty string. -/
def jsParseIntDigits (s : String) : Option ℤ :=
  if s.data.isEmpty then none else some ((digitsVal s.data 0 : ℕ) : ℤ)

/-- One hex digit, uppercase. -/
def hexDigit (n : ℕ) : Char :=
  if n < 10 then Char.ofNat (48 + n) else Char.ofNat (55 + n)

/-- Percent-encoding of one byte. -/
def percentEncodeByte (b : UInt8) : String :=
  String.mk ['%', hexDigit (b.toNat / 16), hexDigit (b.toNat % 16)]

/-- Characters `encodeURIComponent` leaves untouched. -/
def uriUnreservedChar (c : Char) : Bool :=
  c.isAlphanum || c == '-' || c == '_' || c == '.' || c == '!' ||
    c == '~' || c == '*' || c == Char.ofNat 39 || c == '(' || c == ')'

/-- JS `encodeURIComponent`: UTF-8 percent-encode everything outside the
unreserved set. -/
def encodeURIComponent (s : String) : String :=
  s.data.foldl (fun acc c =>
    if uriUnreservedChar c then acc.push c
    else (String.singleton c).toUTF8.toList.foldl (fun a b => a ++ percentEncodeByte b) acc) ""

/-- Split around the first occurrence of `pat`: `some (before, after)`. -/
def splitFirstSub (pat : List Char) : List Char → Option (List Char × List Char)
  | [] => if pat.isEmpty then some ([], []) else none
  | c :: cs =>
    if pat.isPrefixOf (c :: cs) then some ([], (c :: cs).drop pat.length)
    else
      match splitFirstSub pat cs with
      | some (a, b) => some (c :: a, b)
      | none => none

/-- Longest prefix not containing any of `stops`. -/
def takeUntilAny (stops : List Char) : List Char → List Char
  | [] => []
  | c :: cs => if stops.contains c then [] else c :: takeUntilAny stops cs

/-- `new URL(u).origin` for the scheme://host URLs this server handles (tool
inputs are validated as URLs by the zod schema before reaching this code, so
the throwing branch of the `URL` constructor is unreachable and `u` is
returned unchanged in that case). -/
def urlOrigin (u : String) : String :=
  match splitFirstSub "://".data u.data with
  | none => u
  | some (scheme, rest) =>
    String.mk scheme ++ "://" ++ String.mk (takeUntilAny ['/', '?', '#'] rest)

/-- `new URL(u).hostname` for the scheme://host URLs this server handles. -/
def urlHostname (u : String) : String :=
  match splitFirstSub "://".data u.data with
  | none => u
  | some (_, rest) => String.mk (takeUntilAny [':', '/', '?', '#'] rest)

/-- JS `a || b` on an optional string: `undefined` and `""` are falsy. -/
def jsOrStr (a : Option String) (b : String) : String :=
  match a with
  | some s => if s = "" then b else s
  | none => b

/-! ### Scraper data model

Cheerio itself is an external collaborator: an `Html` value abstracts a loaded
document as, for each platform tag, the selector results that platform's
extraction rules would read (matched search-result elements, and the detail
page's field texts). Everything done to those raw texts is embedded from
`ScraperService`. -/

/-- Raw selector results for one matched search-result element. Fields unused
by a given platform keep their defaults. `none` on an attribute models a
missing attribute (`attr()` returning `undefined`). -/
structure SearchItem where
  nameText : String := ""
  priceText : String := ""
  priceWholeText : String := ""
  priceFractionText : String := ""
  ratingText : String := ""
  reviewsText : String := ""
  href : Option String := none
  image : Option String := none
deriving DecidableEq

/-- Normalized search-result record (`ScraperService` search parsers' output
shape). `price`/`rating` `none` models `NaN`; `reviews` `none` models `NaN`. -/
structure SearchResult where
  currency : String
  image : Option String
  name : String
  platform : String
  price : Option ℚ
  rating : Option ℚ := none
  reviews : Option ℤ := none
  url : String
deriving DecidableEq

/-- Raw selector results for one variant row (Amazon swatches / Zara size
buttons). -/
structure VariantRow where
  unavailableClass : Bool := false
  title : Option String := none
  priceText : String := ""
  text : String := ""
deriving DecidableEq

/-- Raw selector results for a product-detail page: the texts and attributes
the platform's detail rules read. -/
structure DetailDoc where
  nameText : String := ""
  priceText : String := ""
  descriptionText : String := ""
  brandText : String := ""
  ratingText : String := ""
  availabilityText : String := ""
  sellerText : String := ""
  conditionText : String := ""
  image : Option String := none
  specRows : List (String × String) := []
  variantRows : List VariantRow := []
deriving DecidableEq

/-- Normalized variant descriptor. -/
structure ProductVariant where
  available : Bool
  name : String
  price : Option ℚ := none
deriving DecidableEq

/-- Normalized product-detail record. Fields a platform's rules do not set
keep their defaults (a JS object simply lacking the key). -/
structure ProductRecord where
  availability : String := ""
  brand : String := ""
  currency : String
  description : String := ""
  image : Option String := none
  name : String
  platform : String
  price : Option ℚ
  rating : Option ℚ := none
  seller : String := ""
  specifications : List (String × String) := []
  url : String
  variants : List ProductVariant := []
deriving DecidableEq

/-- A loaded document, abstracted as the per-platform selector results. -/
structure Html where
  detailDocs : String → DetailDoc
  searchItems : String → List SearchItem

/-- JS object key assignment `obj[label] = value`: overwrite in place if the
key exists, else append. -/
def upsertSpec (l : List (String × String)) (k v : String) : List (String × String) :=
  if l.any (fun p => p.1 == k) then l.map (fun p => if p.1 == k then (k, v) else p)
  else l ++ [(k, v)]

/-- The shared specification-table loop: trim label and value, keep the row
only when both are non-empty. -/
def buildSpecs (rows : List (String × String)) : List (String × String) :=
  rows.foldl (fun acc row =>
    if row.1.jsTrim ≠ "" ∧ row.2.jsTrim ≠ "" then upsertSpec acc row.1.jsTrim row.2.jsTrim else acc) []

/-- The shared push-if loop of the search parsers, in element order. -/
def emitFold {α β : Type} (build : α → β) (guard : α → Bool) (items : List α) : List β :=
  items.foldr (fun it acc => if guard it then build it :: acc else acc) []

/-- Resolve a search-result href against the base URL: absent href yields `""`,
absolute hrefs pass through, relative hrefs are prefixed. -/
def resolveHref (baseUrl : String) (href : Option String) : String :=
  match href with
  | some h => if h.jsStartsWith "http" then h else baseUrl ++ h
  | none => ""

/-! ### Per-platform search extraction (`ScraperService.parse*Search`) -/

def amazonSearchGuard (baseUrl : String) (it : SearchItem) : Bool :=
  it.nameText.jsTrim != "" && (it.priceWholeText.jsTrim != "" || it.priceFractionText.jsTrim != "") &&
    resolveHref baseUrl it.href != ""

def amazonSearchBuild (baseUrl : String) (it : SearchItem) : SearchResult :=
  { currency := "USD", image := it.image, name := it.nameText.jsTrim, platform := "amazon",
    price := jsParseFloat (it.priceWholeText.jsTrim ++ "." ++ it.priceFractionText.jsTrim),
    rating := jsParseFloat it.ratingText,
    reviews := jsParseIntDigits (stripNonDigits it.reviewsText),
    url := resolveHref baseUrl it.href }

def parseAmazonSearch (items : List SearchItem) (baseUrl : String) : List SearchResult :=
  emitFold (amazonSearchBuild baseUrl) (amazonSearchGuard baseUrl) items

def bestbuyPriceText (it : SearchItem) : String :=
  jsReplaceFirst (jsReplaceFirst it.priceText "$" "") "," ""

def bestbuySearchGuard (baseUrl : String) (it : SearchItem) : Bool :=
  it.nameText.jsTrim != "" && bestbuyPriceText it != "" && resolveHref baseUrl it.href != ""

def bestbuySearchBuild (baseUrl : String) (it : SearchItem) : SearchResult :=
  { currency := "USD", image := it.image, name := it.nameText.jsTrim, platform := "bestbuy",
    price := jsParseFloat (bestbuyPriceText it), url := resolveHref baseUrl it.href }

def parseBestBuySearch (items : List SearchItem) (baseUrl : String) : List SearchResult :=
  emitFold (bestbuySearchBuild baseUrl) (bestbuySearchGuard baseUrl) items

def ebayPriceText (it : SearchItem) : String :=
  jsReplaceFirst (jsReplaceFirst it.priceText.jsTrim "$" "") "," ""

def ebaySearchGuard (baseUrl : String) (it : SearchItem) : Bool :=
  it.nameText.jsTrim != "" && ebayPriceText it != "" && resolveHref baseUrl it.href != ""

def ebaySearchBuild (baseUrl : String) (it : SearchItem) : SearchResult :=
  { currency := "USD", image := it.image, name := it.nameText.jsTrim, platform := "ebay",
    price := jsParseFloat (ebayPriceText it), url := resolveHref baseUrl it.href }

def parseEbaySearch (items : List SearchItem) (baseUrl : String) : List SearchResult :=
  emitFold (ebaySearchBuild baseUrl) (ebaySearchGuard baseUrl) items

def etsyPriceText (it : SearchItem) : String :=
  jsReplaceFirst it.priceText "," ""

def etsySearchGuard (baseUrl : String) (it : SearchItem) : Bool :=
  it.nameText.jsTrim != "" && etsyPriceText it != "" && resolveHref baseUrl it.href != ""

def etsySearchBuild (baseUrl : String) (it : SearchItem) : SearchResult :=
  { currency := "USD", image := it.image, name := it.nameText.jsTrim, platform := "etsy",
    price := jsParseFloat (etsyPriceText it), url := resolveHref baseUrl it.href }

def parseEtsySearch (items : List SearchItem) (baseUrl : String) : List SearchResult :=
  emitFold (etsySearchBuild baseUrl) (etsySearchGuard baseUrl) items

def homedepotPriceText (it : SearchItem) : String :=
  jsReplaceFirst (jsReplaceFirst it.priceText "$" "") "," ""

def homedepotSearchGuard (baseUrl : String) (it : SearchItem) : Bool :=
  it.nameText.jsTrim != "" && homedepotPriceText it != "" && resolveHref baseUrl it.href != ""

def homedepotSearchBuild (baseUrl : String) (it : SearchItem) : SearchResult :=
  { currency := "USD", image := it.image, name := it.nameText.jsTrim, platform := "homedepot",
    price := jsParseFloat (homedepotPriceText it), url := resolveHref baseUrl it.href }

def parseHomeDepotSearch (items : List SearchItem) (baseUrl : String) : List SearchResult :=
  emitFold (homedepotSearchBuild baseUrl) (homedepotSearchGuard baseUrl) items

def walmartPriceText (it : SearchItem) : String :=
  jsReplaceFirst (jsReplaceFirst it.priceText "$" "") "," ""

/-- Walmart's guard checks only name and price text — the URL is not checked. -/
def walmartSearchGuard (it : SearchItem) : Bool :=
  it.nameText.jsTrim != "" && walmartPriceText it != ""

/-- `baseUrl + $el.find("a").attr("href")`: JS concatenation with `undefined`
appends the string `"undefined"`. -/
def walmartSearchBuild (baseUrl : String) (it : SearchItem) : SearchResult :=
  { currency := "USD", image := it.image, name := it.nameText.jsTrim, platform := "walmart",
    price := jsParseFloat (walmartPriceText it), url := baseUrl ++ it.href.getD "undefined" }

def parseWalmartSearch (items : List SearchItem) (baseUrl : String) : List SearchResult :=
  emitFold (walmartSearchBuild baseUrl) walmartSearchGuard items

def zaraPriceText (it : SearchItem) : String :=
  jsReplaceFirst (jsReplaceFirst it.priceText "$" "") "," ""

/-- Zara's guard checks only name and price text — the URL is not checked. -/
def zaraSearchGuard (it : SearchItem) : Bool :=
  it.nameText.jsTrim != "" && zaraPriceText it != ""

def zaraSearchBuild (baseUrl : String) (it : SearchItem) : SearchResult :=
  { currency := "USD", image := it.image, name := it.nameText.jsTrim, platform := "zara",
    price := jsParseFloat (zaraPriceText it), url := baseUrl ++ it.href.getD "undefined" }

def parseZaraSearch (items : List SearchItem) (baseUrl : String) : List SearchResult :=
  emitFold (zaraSearchBuild baseUrl) zaraSearchGuard items

/-! ### Per-platform detail extraction (`ScraperService.parse*Product`) -/

/-- Amazon variant swatch loop: push only when the title-derived name is
non-empty. -/
def amazonVariants (rows : List VariantRow) : List ProductVariant :=
  emitFold
    (fun v => { available := !v.unavailableClass, name := v.title.getD "",
                price := jsParseFloat (stripNonPrice v.priceText) })
    (fun v => v.title.getD "" != "") rows

def parseAmazonProduct (d : DetailDoc) (baseUrl : String) : ProductRecord :=
  { availability := d.availabilityText.jsTrim, brand := d.brandText.jsTrim, currency := "USD",
    description := d.descriptionText.jsTrim, image := d.image, name := d.nameText.jsTrim,
    platform := "amazon", price := jsParseFloat (stripNonPrice d.priceText.jsTrim),
    rating := jsParseFloat d.ratingText, seller := d.sellerText.jsTrim,
    specifications := buildSpecs d.specRows, url := baseUrl,
    variants := amazonVariants d.variantRows }

def parseBestBuyProduct (d : DetailDoc) (baseUrl : String) : ProductRecord :=
  { availability := d.availabilityText.jsTrim, brand := d.brandText.jsTrim, currency := "USD",
    description := d.descriptionText.jsTrim, image := d.image, name := d.nameText.jsTrim,
    platform := "bestbuy", price := jsParseFloat (stripNonPrice d.priceText),
    specifications := buildSpecs d.specRows, url := baseUrl }

def parseEbayProduct (d : DetailDoc) (baseUrl : String) : ProductRecord :=
  { availability := d.availabilityText.jsTrim, currency := "USD",
    description := d.descriptionText.jsTrim, image := d.image,
    name := (jsReplaceFirst d.nameText "Details about" "").jsTrim,
    platform := "ebay", price := jsParseFloat (stripNonPrice d.priceText.jsTrim),
    seller := d.sellerText.jsTrim,
    specifications := upsertSpec (buildSpecs d.specRows) "condition" d.conditionText.jsTrim,
    url := baseUrl }

def parseEtsyProduct (d : DetailDoc) (baseUrl : String) : ProductRecord :=
  { currency := "USD", description := d.descriptionText.jsTrim, image := d.image,
    name := d.nameText.jsTrim, platform := "etsy",
    price := jsParseFloat (stripNonPrice d.priceText), seller := d.sellerText.jsTrim,
    specifications := buildSpecs d.specRows, url := baseUrl }

def parseHomeDepotProduct (d : DetailDoc) (baseUrl : String) : ProductRecord :=
  { availability := d.availabilityText.jsTrim, brand := d.brandText.jsTrim, currency := "USD",
    description := d.descriptionText.jsTrim, image := d.image, name := d.nameText.jsTrim,
    platform := "homedepot", price := jsParseFloat (stripNonPrice d.priceText),
    specifications := buildSpecs d.specRows, url := baseUrl }

def parseWalmartProduct (d : DetailDoc) (baseUrl : String) : ProductRecord :=
  { availability := d.availabilityText.jsTrim, currency := "USD",
    description := d.descriptionText.jsTrim, image := d.image, name := d.nameText.jsTrim,
    platform := "walmart", price := jsParseFloat (stripNonPrice d.priceText.jsTrim),
    seller := d.sellerText.jsTrim, specifications := buildSpecs d.specRows, url := baseUrl }

/-- Zara size-button loop: every button is pushed, availability from the
`is-disabled` class. -/
def zaraVariants (rows : List VariantRow) : List ProductVariant :=
  rows.map (fun v => { available := !v.unavailableClass, name := v.text.jsTrim })

def parseZaraProduct (d : DetailDoc) (baseUrl : String) : ProductRecord :=
  { availability := d.availabilityText.jsTrim, currency := "USD",
    description := d.descriptionText.jsTrim, image := d.image, name := d.nameText.jsTrim,
    platform := "zara", price := jsParseFloat (stripNonPrice d.priceText),
    specifications := buildSpecs d.specRows, url := baseUrl,
    variants := zaraVariants d.variantRows }

/-- `ScraperService.parseProductDetails`: dispatch on the platform tag, default
branch throws `Unsupported platform`. Thrown JS errors are `Except.error` with
the thrown message. -/
def parseProductDetails (html : Html) (platform url : String) : Except String ProductRecord :=
  let baseUrl := urlOrigin url
  if platform = "amazon" then .ok (parseAmazonProduct (html.detailDocs "amazon") baseUrl)
  else if platform = "bestbuy" then .ok (parseBestBuyProduct (html.detailDocs "bestbuy") baseUrl)
  else if platform = "ebay" then .ok (parseEbayProduct (html.detailDocs "ebay") baseUrl)
  else if platform = "etsy" then .ok (parseEtsyProduct (html.detailDocs "etsy") baseUrl)
  else if platform = "homedepot" then .ok (parseHomeDepotProduct (html.detailDocs "homedepot") baseUrl)
  else if platform = "walmart" then .ok (parseWalmartProduct (html.detailDocs "walmart") baseUrl)
  else if platform = "zara" then .ok (parseZaraProduct (html.detailDocs "zara") baseUrl)
  else .error ("Unsupported platform: " ++ platform)

/-- `ScraperService.parseSearchResults`: dispatch on the platform tag, default
branch returns the empty list. -/
def parseSearchResults (html : Html) (platform baseUrl : String) : List SearchResult :=
  if platform = "amazon" then parseAmazonSearch (html.searchItems "amazon") baseUrl
  else if platform = "bestbuy" then parseBestBuySearch (html.searchItems "bestbuy") baseUrl
  else if platform = "ebay" then parseEbaySearch (html.searchItems "ebay") baseUrl
  else if platform = "etsy" then parseEtsySearch (html.searchItems "etsy") baseUrl
  else if platform = "homedepot" then parseHomeDepotSearch (html.searchItems "homedepot") baseUrl
  else if platform = "walmart" then parseWalmartSearch (html.searchItems "walmart") baseUrl
  else if platform = "zara" then parseZaraSearch (html.searchItems "zara") baseUrl
  else []

/-! ### Server helpers (`src/build/src/server.js`) -/

/-- `detect_platform`: ordered substring tests on the URL, first match wins,
`"unknown"` otherwise. Total — no failure path exists. -/
def detect_platform (url : String) : String :=
  if jsIncludes url "amazon." then "amazon"
  else if jsIncludes url "ebay." then "ebay"
  else if jsIncludes url "walmart." then "walmart"
  else if jsIncludes url "etsy." then "etsy"
  else if jsIncludes url "bestbuy." then "bestbuy"
  else if jsIncludes url "homedepot." then "homedepot"
  else if jsIncludes url "zara." then "zara"
  else "unknown"

/-- The `dataset_map` object literal of `get_dataset_id`. -/
def datasetMap : List (String × String) :=
  [("amazon", "gd_l7q7dkf244hwjntr0"), ("bestbuy", "gd_ltre1jqe1jfr7cccf"),
   ("ebay", "gd_ltr9mjt81n0zzdk1fb"), ("etsy", "gd_ltppk0jdv1jqz25mz"),
   ("homedepot", "gd_lmusivh019i7g97q2n"), ("unknown", ""),
   ("walmart", "gd_l95fol7l1ru6rlo116"), ("zara", "gd_lct4vafw1tgx27d4o0")]

/-- `get_dataset_id`: object lookup followed by `|| undefined`, which collapses
the empty string mapped to `"unknown"` (and any absent key) to `none`. -/
def get_dataset_id (platform : String) : Option String :=
  match datasetMap.lookup platform with
  | none => none
  | some s => if s = "" then none else some s

/-- The `search_url` switch of `search_products`; the fall-through case leaves
the initial empty string. -/
def searchUrlFor (platform query : String) : String :=
  if platform = "amazon" then "https://www.amazon.com/s?k=" ++ encodeURIComponent query
  else if platform = "bestbuy" then
    "https://www.bestbuy.com/site/searchpage.jsp?st=" ++ encodeURIComponent query ++ "&intl=nosplash"
  else if platform = "ebay" then "https://www.ebay.com/sch/i.html?_nkw=" ++ encodeURIComponent query
  else if platform = "etsy" then "https://www.etsy.com/search?q=" ++ encodeURIComponent query
  else if platform = "homedepot" then "https://www.homedepot.com/search?q=" ++ encodeURIComponent query
  else if platform = "walmart" then "https://www.walmart.com/search?q=" ++ encodeURIComponent query
  else if platform = "zara" then "https://www.zara.com/us/en/search?q=" ++ encodeURIComponent query
  else ""

/-! ### The detail-fetch pipeline (`get_product_details`)

Provider HTTP responses are an oracle: the trigger response's `snapshot_id`,
the i-th progress response's status, the snapshot payload and the raw-scrape
body. The model also counts the requests each run issues, so that statements
about how many polls or fetches happen are statements about the code's control
flow. -/

/-- Provider responses for one `get_product_details` run. -/
structure Oracle where
  rawContent : Html
  snapshot_id : Option String
  status : ℕ → String
  snapshotData : String

/-- Outcome of the poll loop. `fetched n` / `failed n` record how many
progress requests were issued when the loop left the `running` state. -/
inductive PollResult
  | fetched (polls : ℕ)
  | failed (polls : ℕ)
  | timedOut
deriving DecidableEq

/-- The `for (let i = 0; i < max_attempts; i++)` poll loop: each iteration
issues one progress request; `running` continues, `failed` throws, anything
else proceeds to the result fetch; exhausting the budget times out. -/
def pollAux (status : ℕ → String) : ℕ → ℕ → PollResult
  | 0, _ => .timedOut
  | n + 1, i =>
    if status i = "running" then pollAux status n (i + 1)
    else if status i = "failed" then .failed (i + 1)
    else .fetched (i + 1)

def max_attempts : ℕ := 30

/-- Requests issued to the provider during one run. -/
structure Counts where
  raw : ℕ := 0
  trigger : ℕ := 0
  poll : ℕ := 0
  fetch : ℕ := 0
deriving DecidableEq

/-- Payload of the returned envelope: a parsed record on the scraping path, the
opaque snapshot payload on the dataset path. -/
inductive EnvData
  | parsed (r : ProductRecord)
  | raw (payload : String)
deriving DecidableEq

/-- The uniform `{data, method, platform, url}` envelope. -/
structure Envelope where
  data : EnvData
  method : String
  platform : String
  url : String
deriving DecidableEq

/-- `get_product_details` from `src/build/src/server.js`: detect the platform,
look up the dataset id; without one, issue a single raw-content request and run
`parseProductDetails` on its body; with one, trigger a dataset job (failing
without a `snapshot_id`, including the falsy empty string), run the poll loop
and fetch the snapshot on a terminal status. -/
def get_product_details (o : Oracle) (url : String) : Except String Envelope × Counts :=
  let platform := detect_platform url
  match get_dataset_id platform with
  | none =>
    (match parseProductDetails o.rawContent platform (urlOrigin url) with
      | .error e => (.error e, { raw := 1 })
      | .ok r => (.ok { data := .parsed r, method := "scraping", platform := platform, url := url },
          { raw := 1 }))
  | some _ =>
    if o.snapshot_id.getD "" = "" then
      (.error "Failed to trigger dataset collection", { trigger := 1 })
    else
      match pollAux o.status max_attempts 0 with
      | .timedOut => (.error "Timeout waiting for dataset results",
          { trigger := 1, poll := max_attempts })
      | .failed n => (.error "Dataset collection failed", { trigger := 1, poll := n })
      | .fetched n =>
        (.ok { data := .raw o.snapshotData, method := "structured_dataset",
               platform := platform, url := url },
         { trigger := 1, poll := n, fetch := 1 })

/-! ### Batch tools (`search_products`, `compare_prices`, `get_price_update`)

The per-item network calls are oracles returning either a body or the message
of the rejection they throw; the loops around them are embedded from the
source. -/

/-- One entry of the `results` array built by `search_products`. -/
structure SearchEntry where
  data : Option (List SearchResult) := none
  error : Option String := none
  platform : String
  search_url : String
deriving DecidableEq

/-- The `search_products` loop: per-platform try/catch, a failure becomes an
error entry with an empty `search_url` and the loop continues. -/
def search_products (fetchHtml : String → Except String Html)
    (platforms : List String) (query : String) : List SearchEntry :=
  match platforms with
  | [] => []
  | platform :: rest =>
    let search_url := searchUrlFor platform query
    let entry : SearchEntry :=
      match fetchHtml platform with
      | .error msg => { error := some msg, platform := platform, search_url := "" }
      | .ok html =>
        { data := some (parseSearchResults html platform (urlOrigin search_url)),
          platform := platform, search_url := search_url }
    entry :: search_products fetchHtml rest query

/-- The URL branch of `compare_prices`: each `get_product_details` result is
pushed; a failure is only `console.log`-ged — nothing is pushed for it. -/
def compare_prices_urls (getDetails : String → Except String String)
    (urls : List String) : List String :=
  match urls with
  | [] => []
  | url :: rest =>
    match getDetails url with
    | .ok d => d :: compare_prices_urls getDetails rest
    | .error _ => compare_prices_urls getDetails rest

/-- One entry of the `updates` array built by `get_price_update`. -/
structure UpdateEntry where
  data : Option String := none
  error : Option String := none
  status : String
  url : String
deriving DecidableEq

/-- The `get_price_update` loop: per-URL try/catch, a failure becomes a
`status = "error"` entry and the loop continues. -/
def get_price_update (getDetails : String → Except String String)
    (urls : List String) : List UpdateEntry :=
  match urls with
  | [] => []
  | url :: rest =>
    let entry : UpdateEntry :=
      match getDetails url with
      | .ok d => { data := some d, status := "updated", url := url }
      | .error e => { error := some e, status := "error", url := url }
    entry :: get_price_update getDetails rest

/-! ### Persistence collaborator and `ProductService`
(`src/src/services/product-service.ts`, schema from `prisma/schema.prisma`) -/

/-- A `User` row: `id` is the primary key, `userId` the unique external id. -/
structure DbUser where
  id : String
  userId : String
deriving DecidableEq

/-- A `Product` row; `userId` is the nullable foreign key to `User.id`. -/
structure DbProduct where
  id : String
  name : String
  platform : String
  target_price : Option Int := none
  url : String
  tracking_type : String
  createdAt : ℕ
  userId : Option String
deriving DecidableEq

/-- A `Price` row; `productId` is the nullable foreign key to `Product.id`. -/
structure DbPrice where
  id : ℕ
  amount : Int
  createdAt : ℕ
  productId : Option String
deriving DecidableEq

/-- Modelled from the spec: the persistence collaborator (the Prisma-backed
relational store, which is outside the repository) as in-memory tables. Rows
are appended at the end of their table with a strictly increasing logical
clock as `createdAt`, and relation reads return rows in table order, per the
spec's interface description of Price rows as append-only history entries
attached to a Product, ordered by creation time. Generated uuids are modelled
by counter-derived ids. -/
structure Db where
  users : List DbUser
  products : List DbProduct
  prices : List DbPrice
  clock : ℕ
deriving DecidableEq

/-- The `ProductDetails` argument of `trackProduct`
(`{currentPrice?, name?, platform?}`). -/
structure ProductDetails where
  currentPrice : Option Int := none
  name : Option String := none
  platform : Option String := none
deriving DecidableEq

/-- The `{currentPrice, id}` items of `updateAllProducts`. -/
structure PriceUpdate where
  currentPrice : Int
  id : String
deriving DecidableEq

/-- One element returned by `getUserTrackedProducts`: the product with its
`prices` relation included on demand. -/
structure TrackedEntry where
  product : DbProduct
  prices : Option (List DbPrice)
deriving DecidableEq

/-- The Prisma relation filter `where: { User: { userId } }`: the product's
linked `User` row exists and carries the requested external `userId`. -/
def userLinkMatches (db : Db) (userId : String) (p : DbProduct) : Bool :=
  match p.userId with
  | none => false
  | some ref =>
    match db.users.find? (fun u => u.id == ref) with
    | some u => u.userId == userId
    | none => false

/-- `ProductService.getUserTrackedProducts`: `findMany` over products of the
user, including the full `prices` relation when `include_price_history`. -/
def getUserTrackedProducts (db : Db) (userId : String)
    (include_price_history : Bool) : List TrackedEntry :=
  (db.products.filter (userLinkMatches db userId)).map (fun p =>
    { product := p,
      prices := if include_price_history then
          some (db.prices.filter (fun pr => pr.productId == some p.id))
        else none })

/-- `ProductService.trackProduct`: look the user up first and throw
`User not found` before any write; otherwise create the product with a nested
initial price row (JS `||` defaults: empty name falls back to `New Product`,
absent platform to the URL's hostname, absent price to `0`). -/
def trackProduct (db : Db) (userId : String) (url : String)
    (productDetails : ProductDetails) : Db × Except String DbProduct :=
  match db.users.find? (fun u => u.userId == userId) with
  | none => (db, .error "User not found")
  | some user =>
    let prod : DbProduct :=
      { id := "prod-" ++ toString db.clock,
        name := jsOrStr productDetails.name "New Product",
        platform := jsOrStr productDetails.platform (urlHostname url),
        url := url, tracking_type := "price", createdAt := db.clock,
        userId := some user.id }
    let price : DbPrice :=
      { id := db.clock + 1, amount := productDetails.currentPrice.getD 0,
        createdAt := db.clock, productId := some prod.id }
    ({ db with
        products := db.products ++ [prod],
        prices := db.prices ++ [price],
        clock := db.clock + 2 },
     .ok prod)

/-- `ProductService.untrackProduct`: look the user up first and throw
`User not found` before any write; otherwise delete the product matching both
the product id and the owning user (Prisma throws when no such row exists; the
optional `Price.productId` references are set to null). -/
def untrackProduct (db : Db) (userId : String) (productId : String) :
    Db × Except String DbProduct :=
  match db.users.find? (fun u => u.userId == userId) with
  | none => (db, .error "User not found")
  | some user =>
    match db.products.find? (fun p => p.id == productId && p.userId == some user.id) with
    | none => (db, .error "Record to delete does not exist.")
    | some p =>
      ({ db with
          products := db.products.filter (fun q => !(q.id == p.id)),
          prices := db.prices.map (fun pr =>
            if pr.productId == some p.id then { pr with productId := none } else pr) },
       .ok p)

/-- One `prisma.product.update` of `updateAllProducts`: append a new price row
for the product, failing when the product id does not exist. -/
def updateOne (db : Db) (item : PriceUpdate) : Db × Except String DbProduct :=
  match db.products.find? (fun p => p.id == item.id) with
  | none => (db, .error "Record to update not found.")
  | some p =>
    ({ db with
        prices := db.prices ++
          [{ id := db.clock, amount := item.currentPrice, createdAt := db.clock,
             productId := some p.id }],
        clock := db.clock + 1 },
     .ok p)

/-- The sequenced updates inside the transaction, in the order `data.map`
produced them. -/
def updateAllProductsGo (db : Db) : List PriceUpdate → Db × Except String (List DbProduct)
  | [] => (db, .ok [])
  | item :: rest =>
    match updateOne db item with
    | (db1, .ok p) =>
      match updateAllProductsGo db1 rest with
      | (db2, .ok ps) => (db2, .ok (p :: ps))
      | (db2, .error e) => (db2, .error e)
    | (db1, .error e) => (db1, .error e)

/-- `ProductService.updateAllProducts`: run the mapped updates inside
`$transaction` — on any failure the whole transaction rolls back and the store
is left unchanged. -/
def updateAllProducts (db : Db) (data : List PriceUpdate) :
    Db × Except String (List DbProduct) :=
  match updateAllProductsGo db data with
  | (db2, .ok ps) => (db2, .ok ps)
  | (_, .error e) => (db, .error e)

/-! ### Specification-side definitions

These follow the spec's words (not the code) and are only used to compare the
embedded code against the spec's description. -/

/-- The spec's fixed ordered list of platform domain fragments with their
tags. -/
def platformFragments : List (String × String) :=
  [("amazon.", "amazon"), ("ebay.", "ebay"), ("walmart.", "walmart"), ("etsy.", "etsy"),
   ("bestbuy.", "bestbuy"), ("homedepot.", "homedepot"), ("zara.", "zara")]

/-- The spec's description of platform detection: ordered substring
containment tests, first match wins, `"unknown"` when none match. -/
def firstFragmentMatch : List (String × String) → String → String
  | [], _ => "unknown"
  | ft :: rest, url => if jsIncludes url ft.1 then ft.2 else firstFragmentMatch rest url

/-- The platform tags that have an extraction rule in `ScraperService`. -/
def supportedPlatforms : List String :=
  ["amazon", "bestbuy", "ebay", "etsy", "homedepot", "walmart", "zara"]

/-- The platforms whose search guard includes the resolved URL. -/
def urlGuardedPlatforms : List String :=
  ["amazon", "bestbuy", "ebay", "etsy", "homedepot"]

/-- Amounts of the price rows attached to a product, in table (creation)
order. -/
def priceAmountsFor (db : Db) (pid : String) : List Int :=
  (db.prices.filter (fun pr => pr.productId == some pid)).map DbPrice.amount

/-- Store sanity: price-row creation times strictly increase along the table
and stay below the clock. Holds for every store the modelled operations
build. -/
def DbWF (db : Db) : Prop :=
  List.Pairwise (· < ·) (db.prices.map DbPrice.createdAt) ∧
    ∀ pr ∈ db.prices, pr.createdAt < db.clock

/-- The price rows a run of the mapped updates appends, starting at clock
`c`. -/
def newPriceRows (c : ℕ) (pid : String) : List Int → List DbPrice
  | [] => []
  | a :: rest =>
    { id := c, amount := a, createdAt := c, productId := some pid } :: newPriceRows (c + 1) pid rest

/-! ### Concrete fixtures used by witnesses and counterexamples -/

/-- A document on which every selector comes back empty. -/
def emptyHtml : Html :=
  { detailDocs := fun _ => {}, searchItems := fun _ => [] }

/-- A complete Walmart search hit: name, dollar price and a relative link. -/
def itemComplete : SearchItem :=
  { nameText := "Widget", priceText := "$5.99", href := some "/ip/1" }

/-- A Walmart search hit with an unparseable price text and no link at all. -/
def itemPartial : SearchItem :=
  { nameText := "Widget", priceText := "Call for price", href := none }

/-- A document whose Walmart search selector matches exactly `itemComplete`. -/
def htmlWalmartComplete : Html :=
  { detailDocs := fun _ => {},
    searchItems := fun p => if p = "walmart" then [itemComplete] else [] }

/-- A document whose Walmart search selector matches exactly `itemPartial`. -/
def htmlWalmartPartial : Html :=
  { detailDocs := fun _ => {},
    searchItems := fun p => if p = "walmart" then [itemPartial] else [] }

/-- Progress statuses: the first two polls report `running`, every later one
`ready`. -/
def statusRunningRunningReady : ℕ → String :=
  fun i => if i < 2 then "running" else "ready"

/-- Provider run: trigger succeeds, then `running`, `running`, `ready`. -/
def oracleReady3 : Oracle :=
  { rawContent := emptyHtml, snapshot_id := some "s1",
    status := statusRunningRunningReady, snapshotData := "payload" }

/-- Provider run whose trigger response lacks a snapshot id. -/
def oracleNoSnapshot : Oracle :=
  { rawContent := emptyHtml, snapshot_id := none,
    status := fun _ => "running", snapshotData := "" }

/-- Provider run where every progress poll reports `running`. -/
def oracleAllRunning : Oracle :=
  { rawContent := emptyHtml, snapshot_id := some "s2",
    status := fun _ => "running", snapshotData := "" }

/-- An Amazon product URL (platform with a configured dataset id). -/
def urlAmazon : String := "https://www.amazon.com/dp/B000000000"

/-- A URL of no known platform (detected as `unknown`, no dataset id). -/
def urlUnknownSite : String := "https://example.com/p/1"

/-- The envelope the dataset path returns for `oracleReady3` on `urlAmazon`. -/
def envelopeReady3 : Envelope :=
  { data := .raw "payload", method := "structured_dataset", platform := "amazon",
    url := urlAmazon }

/-- The request counts of that run: one trigger, three polls, one fetch. -/
def countsReady3 : Counts := { trigger := 1, poll := 3, fetch := 1 }

/-- A search fetcher that succeeds on Amazon and throws on everything else. -/
def fetchAmazonOnly : String → Except String Html :=
  fun p => if p = "amazon" then .ok emptyHtml else .error "Request failed with status code 500"

/-- A detail fetcher that always throws. -/
def detailsAlwaysFail : String → Except String String :=
  fun _ => .error "Timeout waiting for dataset results"

/-- A store with one user owning one product that has one price row. -/
def dbOneProduct : Db :=
  { users := [{ id := "u-1", userId := "alice" }],
    products := [{ id := "p-1", name := "Widget", platform := "amazon",
                   url := "https://www.amazon.com/dp/B000000000", tracking_type := "price",
                   createdAt := 0, userId := some "u-1" }],
    prices := [{ id := 1, amount := 999, createdAt := 1, productId := some "p-1" }],
    clock := 2 }

/-- The empty store. -/
def dbEmpty : Db := { users := [], products := [], prices := [], clock := 0 }

/-- The record Walmart search extraction emits for `itemComplete`. -/
def resultComplete : SearchResult :=
  { currency := "USD", image := none, name := "Widget", platform := "walmart",
    price := some (mkRat 599 100), url := "https://www.walmart.com/ip/1" }

/-- The record Walmart search extraction emits for `itemPartial`: it carries an
unparseable (`NaN`) price and the unresolvable URL `baseUrl ++ "undefined"`. -/
def resultPartial : SearchResult :=
  { currency := "USD", image := none, name := "Widget", platform := "walmart",
    price := none, url := "https://www.walmart.comundefined" }

/-- The successful Amazon entry of a `search_products` run over `emptyHtml`. -/
def entrySearchAmazon : SearchEntry :=
  { data := some [], error := none, platform := "amazon",
    search_url := "https://www.amazon.com/s?k=usb" }

/-! ### Helper lemmas -/

/-- Unfolding of the shared push-if loop. -/
theorem emitFold_cons {α β : Type} (build : α → β) (guard : α → Bool) (it : α) (rest : List α) :
    emitFold build guard (it :: rest) =
      if guard it then build it :: emitFold build guard rest
      else emitFold build guard rest := rfl

/-- Every emitted record comes from a matched element that passed the guard. -/
theorem mem_emitFold {α β : Type} {build : α → β} {guard : α → Bool} {items : List α} {r : β}
    (h : r ∈ emitFold build guard items) : ∃ it ∈ items, guard it = true ∧ r = build it := by
  induction items with
  | nil => simp [emitFold] at h
  | cons it rest ih =>
    rw [emitFold_cons] at h
    by_cases hg : guard it
    · rw [if_pos hg] at h
      rcases List.mem_cons.mp h with rfl | hmem
      · exact ⟨it, List.mem_cons_self _ _, hg, rfl⟩
      · obtain ⟨it2, hmem2, hg2, hr2⟩ := ih hmem
        exact ⟨it2, List.mem_cons_of_mem _ hmem2, hg2, hr2⟩
    · rw [if_neg hg] at h
      obtain ⟨it2, hmem2, hg2, hr2⟩ := ih h
      exact ⟨it2, List.mem_cons_of_mem _ hmem2, hg2, hr2⟩

/-- One iteration of the poll loop. -/
theorem pollAux_succ (status : ℕ → String) (n i : ℕ) :
    pollAux status (n + 1) i =
      if status i = "running" then pollAux status n (i + 1)
      else if status i = "failed" then .failed (i + 1)
      else .fetched (i + 1) := rfl

/-- The poll counter of a terminal outcome never exceeds the fuel plus the
starting index. -/
theorem pollAux_le (status : ℕ → String) :
    ∀ n i m, pollAux status n i = .fetched m ∨ pollAux status n i = .failed m → m ≤ i + n := by
  intro n
  induction n with
  | zero => intro i m h; rcases h with h | h <;> simp [pollAux] at h
  | succ n ih =>
    intro i m h
    rw [pollAux_succ] at h
    by_cases hr : status i = "running"
    · rw [if_pos hr] at h
      have := ih (i + 1) m h
      omega
    · rw [if_neg hr] at h
      by_cases hf : status i = "failed"
      · rw [if_pos hf] at h
        rcases h with h | h <;> simp_all
        omega
      · rw [if_neg hf] at h
        rcases h with h | h <;> simp_all
        omega

/-- When every status in the window is `running`, the loop exhausts its
budget. -/
theorem pollAux_all_running (status : ℕ → String) :
    ∀ n i, (∀ j, j < i + n → status j = "running") → pollAux status n i = .timedOut := by
  intro n
  induction n with
  | zero => intro i _; rfl
  | succ n ih =>
    intro i h
    rw [pollAux_succ, if_pos (h i (by omega))]
    exact ih (i + 1) (fun j hj => h j (by omega))

/-- Amounts of the appended rows are the update amounts in order. -/
theorem newPriceRows_amounts (pid : String) :
    ∀ (amts : List Int) (c : ℕ), (newPriceRows c pid amts).map DbPrice.amount = amts := by
  intro amts
  induction amts with
  | nil => intro c; rfl
  | cons a rest ih => intro c; simp [newPriceRows, ih]

/-- Appended rows are stamped at or after the starting clock. -/
theorem newPriceRows_created_ge (pid : String) :
    ∀ (amts : List Int) (c : ℕ), ∀ pr ∈ newPriceRows c pid amts, c ≤ pr.createdAt := by
  intro amts
  induction amts with
  | nil => intro c pr h; simp [newPriceRows] at h
  | cons a rest ih =>
    intro c pr h
    rcases List.mem_cons.mp h with rfl | h
    · exact le_refl _
    · exact le_trans (by omega) (ih (c + 1) pr h)

/-- Appended rows carry strictly increasing creation times. -/
theorem newPriceRows_pairwise (pid : String) :
    ∀ (amts : List Int) (c : ℕ),
      List.Pairwise (· < ·) ((newPriceRows c pid amts).map DbPrice.createdAt) := by
  intro amts
  induction amts with
  | nil => intro c; simp [newPriceRows]
  | cons a rest ih =>
    intro c
    simp only [newPriceRows, List.map_cons, List.pairwise_cons]
    refine ⟨?_, ih (c + 1)⟩
    intro x hx
    obtain ⟨pr, hpr, rfl⟩ := List.mem_map.mp hx
    have := newPriceRows_created_ge pid rest (c + 1) pr hpr
    omega

/-- All appended rows belong to the updated product. -/
theorem newPriceRows_filter (pid : String) :
    ∀ (amts : List Int) (c : ℕ),
      (newPriceRows c pid amts).filter (fun pr => pr.productId == some pid) =
        newPriceRows c pid amts := by
  intro amts
  induction amts with
  | nil => intro c; rfl
  | cons a rest ih => intro c; simp [newPriceRows, List.filter_cons, ih]

/-- When every update targets an existing product, the transaction body
succeeds and appends exactly the new rows, in update order, at the end of the
price table. -/
theorem updateGo_ok (pid : String) :
    ∀ (amts : List Int) (db : Db),
      (db.products.find? (fun p => p.id == pid)).isSome = true →
      ∃ ps, updateAllProductsGo db (amts.map (fun a => { currentPrice := a, id := pid })) =
        ({ db with
            prices := db.prices ++ newPriceRows db.clock pid amts,
            clock := db.clock + amts.length },
         .ok ps) := by
  intro amts
  induction amts with
  | nil =>
    intro db _
    exact ⟨[], by simp [updateAllProductsGo, newPriceRows]⟩
  | cons a rest ih =>
    intro db h
    obtain ⟨p, hfind⟩ := Option.isSome_iff_exists.mp h
    have hpid : p.id = pid := by simpa using List.find?_some hfind
    have hone : updateOne db { currentPrice := a, id := pid } =
        ({ db with
            prices := db.prices ++
              [{ id := db.clock, amount := a, createdAt := db.clock, productId := some pid }],
            clock := db.clock + 1 },
         .ok p) := by
      simp [updateOne, hfind, hpid]
    obtain ⟨ps, hgo⟩ := ih
      { db with
        prices := db.prices ++
          [{ id := db.clock, amount := a, createdAt := db.clock, productId := some pid }],
        clock := db.clock + 1 }
      (by simpa using h)
    refine ⟨p :: ps, ?_⟩
    simp only [List.map_cons, updateAllProductsGo, hone, hgo]
    congr 1
    simp only [newPriceRows, List.append_assoc, List.singleton_append, List.length_cons,
      Db.mk.injEq, true_and, and_true]
    omega

/-- With price history included, every returned entry carries exactly its
product's price rows, in table order. -/
theorem mem_getUserTracked (db : Db) (uid : String) (e : TrackedEntry)
    (he : e ∈ getUserTrackedProducts db uid true) :
    e.prices = some (db.prices.filter (fun pr => pr.productId == some e.product.id)) := by
  unfold getUserTrackedProducts at he
  obtain ⟨p, hp, rfl⟩ := List.mem_map.mp he
  simp

/-! ### Claim theorems -/

/-- Claim C1 (amended). Search extraction only emits items whose trimmed name
is non-empty, and on amazon, bestbuy, ebay, etsy and homedepot additionally
only items with a non-empty resolved URL. (The original claim fails: walmart
and zara do not check the URL at all, and on every platform the guard checks
only that the cleaned price text is non-empty, not that it is parseable — see
the counterexample.) -/
theorem searchResults_field_guards (html : Html) (p base : String) (r : SearchResult)
    (hr : r ∈ parseSearchResults html p base) :
    r.name ≠ "" ∧ (p ∈ urlGuardedPlatforms → r.url ≠ "") := by
  unfold parseSearchResults at hr
  split_ifs at hr with h1 h2 h3 h4 h5 h6 h7
  · subst h1
    obtain ⟨it, _, hg, rfl⟩ := mem_emitFold hr
    simp only [amazonSearchGuard, Bool.and_eq_true, Bool.or_eq_true, bne_iff_ne, ne_eq] at hg
    exact ⟨by simpa [amazonSearchBuild] using hg.1.1,
      fun _ => by simpa [amazonSearchBuild] using hg.2⟩
  · subst h2
    obtain ⟨it, _, hg, rfl⟩ := mem_emitFold hr
    simp only [bestbuySearchGuard, Bool.and_eq_true, bne_iff_ne, ne_eq] at hg
    exact ⟨by simpa [bestbuySearchBuild] using hg.1.1,
      fun _ => by simpa [bestbuySearchBuild] using hg.2⟩
  · subst h3
    obtain ⟨it, _, hg, rfl⟩ := mem_emitFold hr
    simp only [ebaySearchGuard, Bool.and_eq_true, bne_iff_ne, ne_eq] at hg
    exact ⟨by simpa [ebaySearchBuild] using hg.1.1,
      fun _ => by simpa [ebaySearchBuild] using hg.2⟩
  · subst h4
    obtain ⟨it, _, hg, rfl⟩ := mem_emitFold hr
    simp only [etsySearchGuard, Bool.and_eq_true, bne_iff_ne, ne_eq] at hg
    exact ⟨by simpa [etsySearchBuild] using hg.1.1,
      fun _ => by simpa [etsySearchBuild] using hg.2⟩
  · subst h5
    obtain ⟨it, _, hg, rfl⟩ := mem_emitFold hr
    simp only [homedepotSearchGuard, Bool.and_eq_true, bne_iff_ne, ne_eq] at hg
    exact ⟨by simpa [homedepotSearchBuild] using hg.1.1,
      fun _ => by simpa [homedepotSearchBuild] using hg.2⟩
  · subst h6
    obtain ⟨it, _, hg, rfl⟩ := mem_emitFold hr
    simp only [walmartSearchGuard, Bool.and_eq_true, bne_iff_ne, ne_eq] at hg
    refine ⟨by simpa [walmartSearchBuild] using hg.1, fun hmem => ?_⟩
    simp [urlGuardedPlatforms] at hmem
  · subst h7
    obtain ⟨it, _, hg, rfl⟩ := mem_emitFold hr
    simp only [zaraSearchGuard, Bool.and_eq_true, bne_iff_ne, ne_eq] at hg
    refine ⟨by simpa [zaraSearchBuild] using hg.1, fun hmem => ?_⟩
    simp [urlGuardedPlatforms] at hmem
  · simp at hr

/-- Claim C1 witness: a complete Walmart hit is emitted with its non-empty
name. -/
theorem searchResults_field_guards_witness :
    resultComplete.name ≠ "" ∧ ("walmart" ∈ urlGuardedPlatforms → resultComplete.url ≠ "") :=
  searchResults_field_guards htmlWalmartComplete "walmart" "https://www.walmart.com"
    resultComplete (by decide)

/-- Claim C1 counterexample. A Walmart search item whose price text is
unparseable and whose link is missing is still emitted: the output record
carries a `NaN` price and the URL `"https://www.walmart.comundefined"` — it is
not excluded from the output sequence as the claim states. -/
theorem parseWalmartSearch_emits_partial_item :
    parseSearchResults htmlWalmartPartial "walmart" "https://www.walmart.com" =
      [resultPartial] := by decide

/-- Claim C2 (amended). Driven by statuses whose first two polls return
`running` and whose third returns `ready`, the poller issues exactly 3
progress requests before the single result fetch (the third request is the
one that observes the terminal status), and returns the structured-dataset
envelope. -/
theorem poller_polls_before_fetch (o : Oracle) (url : String)
    (hd : (get_dataset_id (detect_platform url)).isSome = true)
    (hs : o.snapshot_id.getD "" ≠ "") (h0 : o.status 0 = "running")
    (h1 : o.status 1 = "running") (h2 : o.status 2 = "ready") :
    (get_product_details o url).2.poll = 3 ∧ (get_product_details o url).2.fetch = 1 ∧
      (get_product_details o url).1 =
        .ok { data := .raw o.snapshotData, method := "structured_dataset",
              platform := detect_platform url, url := url } := by
  obtain ⟨d, hd⟩ := Option.isSome_iff_exists.mp hd
  have hp : pollAux o.status max_attempts 0 = .fetched 3 := by
    have e1 : pollAux o.status 30 0 = pollAux o.status 29 1 := by
      rw [show (30 : ℕ) = 29 + 1 from rfl, pollAux_succ, h0]; simp
    have e2 : pollAux o.status 29 1 = pollAux o.status 28 2 := by
      rw [show (29 : ℕ) = 28 + 1 from rfl, pollAux_succ, h1]; simp
    have e3 : pollAux o.status 28 2 = .fetched 3 := by
      rw [show (28 : ℕ) = 27 + 1 from rfl, pollAux_succ, h2]; simp
    rw [max_attempts, e1, e2, e3]
  simp [get_product_details, hd, hs, hp]

/-- Claim C2 witness: the concrete run `oracleReady3` on an Amazon URL. -/
theorem poller_polls_before_fetch_witness :
    (get_product_details oracleReady3 urlAmazon).2.poll = 3 ∧
      (get_product_details oracleReady3 urlAmazon).2.fetch = 1 ∧
      (get_product_details oracleReady3 urlAmazon).1 =
        .ok { data := .raw oracleReady3.snapshotData, method := "structured_dataset",
              platform := detect_platform urlAmazon, url := urlAmazon } :=
  poller_polls_before_fetch oracleReady3 urlAmazon (by decide) (by decide) rfl rfl rfl

/-- Claim C2 counterexample. On the status sequence
`["running", "running", "ready"]` the result fetch does happen, but 3 — not
2 — progress (poll) requests were issued before it. -/
theorem poller_three_polls_cex :
    (get_product_details oracleReady3 urlAmazon).2.fetch = 1 ∧
      (get_product_details oracleReady3 urlAmazon).2.poll = 3 ∧
      ¬(get_product_details oracleReady3 urlAmazon).2.poll = 2 := by decide

/-- Claim C3 (amended). `search_products` and `get_price_update` convert every
per-item failure into a structured error entry, so the batch never fails and
every requested platform/URL appears exactly once, as a success or an error
entry. The URL branch of `compare_prices` also never fails, but it only logs a
per-URL failure: its result list keeps the successes in order and the failed
URLs are absent (the original claim's "every requested item appears" is false
for `compare_prices` — see the counterexample). -/
theorem batch_partial_failure (fetchHtml : String → Except String Html)
    (getDetails : String → Except String String)
    (platforms : List String) (query : String) (urls : List String) :
    ((search_products fetchHtml platforms query).map SearchEntry.platform = platforms ∧
      ∀ e ∈ search_products fetchHtml platforms query, e.data.isSome ∨ e.error.isSome) ∧
    ((get_price_update getDetails urls).map UpdateEntry.url = urls ∧
      ∀ e ∈ get_price_update getDetails urls,
        (e.status = "updated" ∧ e.data.isSome) ∨ (e.status = "error" ∧ e.error.isSome)) ∧
    compare_prices_urls getDetails urls = urls.filterMap (fun u => (getDetails u).toOption) := by
  refine ⟨?_, ?_, ?_⟩
  · induction platforms with
    | nil => simp [search_products]
    | cons p rest ih =>
      constructor
      · rcases hf : fetchHtml p with msg | html <;>
          simp [search_products, hf, ih.1]
      · intro e he
        rcases hf : fetchHtml p with msg | html <;>
          simp [search_products, hf] at he <;>
          rcases he with rfl | he
        · simp
        · exact ih.2 e he
        · simp
        · exact ih.2 e he
  · induction urls with
    | nil => simp [get_price_update]
    | cons u rest ih =>
      constructor
      · rcases hg : getDetails u with msg | d <;> simp [get_price_update, hg, ih.1]
      · intro e he
        rcases hg : getDetails u with msg | d <;>
          simp [get_price_update, hg] at he <;>
          rcases he with rfl | he
        · simp
        · exact ih.2 e he
        · simp
        · exact ih.2 e he
  · induction urls with
    | nil => simp [compare_prices_urls]
    | cons u rest ih =>
      rcases hg : getDetails u with msg | d <;>
        simp [compare_prices_urls, hg, ih, Except.toOption]

/-- Claim C3 witness: a search over amazon and ebay where only ebay's fetch
throws, and a price update over one URL whose fetch throws. -/
theorem batch_partial_failure_witness :
    (search_products fetchAmazonOnly ["amazon", "ebay"] "usb").map SearchEntry.platform =
        ["amazon", "ebay"] ∧
      (entrySearchAmazon.data.isSome ∨ entrySearchAmazon.error.isSome) ∧
      (get_price_update detailsAlwaysFail ["https://www.amazon.com/dp/B1"]).map
          UpdateEntry.url = ["https://www.amazon.com/dp/B1"] ∧
      compare_prices_urls detailsAlwaysFail ["https://www.amazon.com/dp/B1"] =
        List.filterMap (fun u => (detailsAlwaysFail u).toOption)
          ["https://www.amazon.com/dp/B1"] :=
  ⟨(batch_partial_failure fetchAmazonOnly detailsAlwaysFail ["amazon", "ebay"] "usb"
      ["https://www.amazon.com/dp/B1"]).1.1,
   (batch_partial_failure fetchAmazonOnly detailsAlwaysFail ["amazon", "ebay"] "usb"
      ["https://www.amazon.com/dp/B1"]).1.2 entrySearchAmazon (by decide),
   (batch_partial_failure fetchAmazonOnly detailsAlwaysFail ["amazon", "ebay"] "usb"
      ["https://www.amazon.com/dp/B1"]).2.1.1,
   (batch_partial_failure fetchAmazonOnly detailsAlwaysFail ["amazon", "ebay"] "usb"
      ["https://www.amazon.com/dp/B1"]).2.2⟩

/-- Claim C3 counterexample. A `compare_prices` URL batch whose single URL's
detail fetch throws returns an empty result list: the requested URL appears
neither as a success entry nor as an error entry. -/
theorem compare_prices_drops_failed_url :
    compare_prices_urls detailsAlwaysFail ["https://www.amazon.com/dp/B1"] = [] := by decide

/-- Claim C4 (amended). Whenever the detail-fetch pipeline returns an
envelope, its method is `structured_dataset` exactly when the detected
platform has a configured dataset id, and the envelope echoes the platform and
URL. When the dataset id is absent the pipeline does issue exactly one
raw-content request and runs the Field Extractor on its body — but the only
dataset-less platform is `unknown`, which detail extraction rejects, so that
path throws an unsupported-platform error instead of returning a
`method = "scraping"` envelope (see the counterexample). -/
theorem envelope_method_tag (o : Oracle) (url : String) :
    (∀ env c, get_product_details o url = (.ok env, c) →
        (env.method = "structured_dataset" ↔
          (get_dataset_id (detect_platform url)).isSome = true) ∧
        env.platform = detect_platform url ∧ env.url = url) ∧
    (get_dataset_id (detect_platform url) = none →
        (get_product_details o url).2 = { raw := 1 } ∧
        (get_product_details o url).1 =
          (parseProductDetails o.rawContent (detect_platform url) (urlOrigin url)).map
            (fun r => { data := .parsed r, method := "scraping",
                        platform := detect_platform url, url := url })) := by
  rcases hdid : get_dataset_id (detect_platform url) with _ | d
  · constructor
    · intro env c heq
      rcases hpp : parseProductDetails o.rawContent (detect_platform url) (urlOrigin url)
        with e | r
      · simp [get_product_details, hdid, hpp] at heq
      · simp [get_product_details, hdid, hpp] at heq
        obtain ⟨henv, -⟩ := heq
        simp [← henv, hdid]
    · intro _
      rcases hpp : parseProductDetails o.rawContent (detect_platform url) (urlOrigin url)
        with e | r <;> simp [get_product_details, hdid, hpp, Except.map]
  · constructor
    · intro env c heq
      by_cases hs : o.snapshot_id.getD "" = ""
      · simp [get_product_details, hdid, hs] at heq
      · rcases hpl : pollAux o.status max_attempts 0 with n | n | _
        · simp [get_product_details, hdid, hs, hpl] at heq
          obtain ⟨henv, -⟩ := heq
          simp [← henv, hdid]
        · simp [get_product_details, hdid, hs, hpl] at heq
        · simp [get_product_details, hdid, hs, hpl] at heq
    · intro hnone
      cases hnone

/-- Claim C4 witness: the dataset run `oracleReady3` on an Amazon URL for the
envelope half, and an unknown-platform URL for the raw-scrape half. -/
theorem envelope_method_tag_witness :
    ((envelopeReady3.method = "structured_dataset" ↔
        (get_dataset_id (detect_platform urlAmazon)).isSome = true) ∧
      envelopeReady3.platform = detect_platform urlAmazon ∧
      envelopeReady3.url = urlAmazon) ∧
    ((get_product_details oracleReady3 urlUnknownSite).2 = { raw := 1 } ∧
      (get_product_details oracleReady3 urlUnknownSite).1 =
        (parseProductDetails oracleReady3.rawContent (detect_platform urlUnknownSite)
            (urlOrigin urlUnknownSite)).map
          (fun r => { data := .parsed r, method := "scraping",
                      platform := detect_platform urlUnknownSite, url := urlUnknownSite })) :=
  ⟨(envelope_method_tag oracleReady3 urlAmazon).1 envelopeReady3 countsReady3 (by decide),
   (envelope_method_tag oracleReady3 urlUnknownSite).2 (by decide)⟩

/-- Claim C4 counterexample. For a URL of an unknown platform the dataset id
is absent, yet the pipeline does not return an envelope with
`method = "scraping"`: the Field Extractor rejects the platform and the call
throws. -/
theorem unknown_platform_no_scraping_envelope :
    get_dataset_id (detect_platform urlUnknownSite) = none ∧
      (get_product_details oracleReady3 urlUnknownSite).1 =
        .error "Unsupported platform: unknown" := by decide

/-- Claim C5. `detect_platform` is total by construction and coincides, on
every URL, with the spec's first-match ordered substring test over the fixed
fragment list (amazon., ebay., walmart., etsy., bestbuy., homedepot., zara.),
returning `"unknown"` when no fragment occurs. -/
theorem detect_platform_spec (url : String) :
    detect_platform url = firstFragmentMatch platformFragments url := rfl

/-- Claim C6. With a dataset platform, a trigger response lacking a snapshot
id fails the call immediately with the trigger error and issues no poll and no
result-fetch request. -/
theorem trigger_without_snapshot (o : Oracle) (url : String)
    (hd : (get_dataset_id (detect_platform url)).isSome = true)
    (hsnap : o.snapshot_id = none) :
    (get_product_details o url).1 = .error "Failed to trigger dataset collection" ∧
      (get_product_details o url).2.poll = 0 ∧ (get_product_details o url).2.fetch = 0 := by
  obtain ⟨d, hd⟩ := Option.isSome_iff_exists.mp hd
  simp [get_product_details, hd, hsnap]

/-- Claim C6 witness: `oracleNoSnapshot` on an Amazon URL. -/
theorem trigger_without_snapshot_witness :
    (get_product_details oracleNoSnapshot urlAmazon).1 =
        .error "Failed to trigger dataset collection" ∧
      (get_product_details oracleNoSnapshot urlAmazon).2.poll = 0 ∧
      (get_product_details oracleNoSnapshot urlAmazon).2.fetch = 0 :=
  trigger_without_snapshot oracleNoSnapshot urlAmazon (by decide) rfl

/-- Claim C7. Every run issues at most 30 poll requests, and when all 30 polls
report `running` the call fails with the timeout error after exactly 30 polls
— no 31st poll is issued. -/
theorem poll_budget_bounded (o : Oracle) (url : String) :
    (get_product_details o url).2.poll ≤ max_attempts ∧
      ((∀ i, i < max_attempts → o.status i = "running") →
        (get_dataset_id (detect_platform url)).isSome = true →
        o.snapshot_id.getD "" ≠ "" →
        (get_product_details o url).1 = .error "Timeout waiting for dataset results" ∧
          (get_product_details o url).2.poll = max_attempts) := by
  constructor
  · rcases hdid : get_dataset_id (detect_platform url) with _ | d
    · rcases hpp : parseProductDetails o.rawContent (detect_platform url) (urlOrigin url)
        with e | r <;> simp [get_product_details, hdid, hpp]
    · by_cases hs : o.snapshot_id.getD "" = ""
      · simp [get_product_details, hdid, hs]
      · rcases hpl : pollAux o.status max_attempts 0 with n | n | _
        · have := pollAux_le o.status max_attempts 0 n (Or.inl hpl)
          simp [get_product_details, hdid, hs, hpl]
          omega
        · have := pollAux_le o.status max_attempts 0 n (Or.inr hpl)
          simp [get_product_details, hdid, hs, hpl]
          omega
        · simp [get_product_details, hdid, hs, hpl]
  · intro hall hd hs
    obtain ⟨d, hd⟩ := Option.isSome_iff_exists.mp hd
    have hto : pollAux o.status max_attempts 0 = .timedOut :=
      pollAux_all_running o.status max_attempts 0 (fun j hj => hall j (by omega))
    simp [get_product_details, hd, hs, hto]

/-- Claim C7 witness: `oracleAllRunning` on an Amazon URL. -/
theorem poll_budget_bounded_witness :
    (get_product_details oracleAllRunning urlAmazon).2.poll ≤ max_attempts ∧
      ((get_product_details oracleAllRunning urlAmazon).1 =
          .error "Timeout waiting for dataset results" ∧
        (get_product_details oracleAllRunning urlAmazon).2.poll = max_attempts) :=
  ⟨(poll_budget_bounded oracleAllRunning urlAmazon).1,
   (poll_budget_bounded oracleAllRunning urlAmazon).2 (fun i _ => rfl) (by decide) (by decide)⟩

/-- Claim C8. A platform tag with no extraction rule — `"unknown"` included —
makes detail extraction throw the unsupported-platform error, while search
extraction on the same tag returns the empty sequence instead of failing. -/
theorem unsupported_platform_asymmetry (html : Html) (p u base : String)
    (hp : p ∉ supportedPlatforms) :
    parseProductDetails html p u = .error ("Unsupported platform: " ++ p) ∧
      parseSearchResults html p base = [] := by
  simp only [supportedPlatforms, List.mem_cons, List.not_mem_nil, or_false, not_or] at hp
  obtain ⟨h1, h2, h3, h4, h5, h6, h7⟩ := hp
  constructor <;> simp [parseProductDetails, parseSearchResults, h1, h2, h3, h4, h5, h6, h7]

/-- Claim C8 witness: the tag `"unknown"` on an empty document. -/
theorem unsupported_platform_asymmetry_witness :
    parseProductDetails emptyHtml "unknown" "https://example.com/x" =
        .error ("Unsupported platform: " ++ "unknown") ∧
      parseSearchResults emptyHtml "unknown" "https://example.com" = [] :=
  unsupported_platform_asymmetry emptyHtml "unknown" "https://example.com/x"
    "https://example.com" (by decide)

/-- Claim C9. After a sequence of price updates through `updateAllProducts`,
reading the product back with `include_price_history = true` returns its price
rows as the pre-existing rows followed by the new amounts in update order,
with strictly increasing creation times — insertion (creation-time) order is
preserved by the round trip. -/
theorem price_history_roundtrip (db : Db) (uid pid : String) (amts : List Int)
    (hwf : DbWF db)
    (hp : (db.products.find? (fun p => p.id == pid)).isSome = true) :
    ∃ db2 ps,
      updateAllProducts db (amts.map (fun a => { currentPrice := a, id := pid })) =
        (db2, .ok ps) ∧
      ∀ e ∈ getUserTrackedProducts db2 uid true, e.product.id = pid →
        ∃ rows, e.prices = some rows ∧
          rows.map DbPrice.amount = priceAmountsFor db pid ++ amts ∧
          List.Pairwise (· < ·) (rows.map DbPrice.createdAt) := by
  obtain ⟨ps, hgo⟩ := updateGo_ok pid amts db hp
  refine ⟨{ db with
      prices := db.prices ++ newPriceRows db.clock pid amts,
      clock := db.clock + amts.length }, ps, ?_, ?_⟩
  · simp [updateAllProducts, hgo]
  · intro e he hid
    have hrows := mem_getUserTracked _ uid e he
    rw [hid] at hrows
    refine ⟨_, hrows, ?_, ?_⟩
    · simp only [List.filter_append, newPriceRows_filter, List.map_append,
        newPriceRows_amounts, priceAmountsFor]
    · simp only [List.filter_append, newPriceRows_filter, List.map_append]
      apply List.pairwise_append.mpr
      refine ⟨?_, newPriceRows_pairwise pid amts db.clock, ?_⟩
      · exact List.Pairwise.sublist
          (List.Sublist.map DbPrice.createdAt (List.filter_sublist db.prices)) hwf.1
      · intro x hx y hy
        obtain ⟨prx, hprx, rfl⟩ := List.mem_map.mp hx
        obtain ⟨pry, hpry, rfl⟩ := List.mem_map.mp hy
        have hx2 : prx ∈ db.prices := List.mem_of_mem_filter hprx
        have hlt : prx.createdAt < db.clock := hwf.2 prx hx2
        have hge : db.clock ≤ pry.createdAt :=
          newPriceRows_created_ge pid amts db.clock pry hpry
        omega

/-- Claim C9 witness: two updates of the one tracked product of
`dbOneProduct`. -/
theorem price_history_roundtrip_witness :
    ∃ db2 ps,
      updateAllProducts dbOneProduct
          ([(500 : Int), 300].map (fun a => { currentPrice := a, id := "p-1" })) =
        (db2, .ok ps) ∧
      ∀ e ∈ getUserTrackedProducts db2 "alice" true, e.product.id = "p-1" →
        ∃ rows, e.prices = some rows ∧
          rows.map DbPrice.amount = priceAmountsFor dbOneProduct "p-1" ++ [500, 300] ∧
          List.Pairwise (· < ·) (rows.map DbPrice.createdAt) :=
  price_history_roundtrip dbOneProduct "alice" "p-1" [500, 300]
    (by unfold DbWF; exact ⟨by decide, by decide⟩) (by decide)

/-- Claim C10. When no user row matches the given external user id, both
`trackProduct` and `untrackProduct` fail with `User not found` and leave the
store completely unchanged: no product or price row is created or deleted. -/
theorem missing_user_no_write (db : Db) (uid url : String) (details : ProductDetails)
    (pid : String) (h : db.users.find? (fun u => u.userId == uid) = none) :
    trackProduct db uid url details = (db, .error "User not found") ∧
      untrackProduct db uid pid = (db, .error "User not found") := by
  constructor <;> simp [trackProduct, untrackProduct, h]

/-- Claim C10 witness: the empty store. -/
theorem missing_user_no_write_witness :
    trackProduct dbEmpty "alice" "https://www.amazon.com/dp/B1" {} =
        (dbEmpty, .error "User not found") ∧
      untrackProduct dbEmpty "alice" "p-1" = (dbEmpty, .error "User not found") :=
  missing_user_no_write dbEmpty "alice" "https://www.amazon.com/dp/B1" {} "p-1" rfl
